import Mathlib

/-
Verification of the paleohydraulics script (src/paleohydraulics.py).

The script computes paleo-flow velocities from gravel-dune geometry and
scour-mark dimensions. All arithmetic is modelled over the real numbers.
Python operations that can raise an exception (math.sqrt on a negative
argument, math.log10 on a non-positive argument, division by zero) are
modelled as Option-valued operations returning none on the error branch,
so a function "returns normally" exactly when the embedding returns some.
-/

namespace Paleo

/-- Python math.sqrt: raises ValueError (modelled as none) on a negative
argument, otherwise returns the real square root. -/
noncomputable def pysqrt (x : ℝ) : Option ℝ :=
  if x < 0 then none else some (Real.sqrt x)

/-- Python math.log10: raises ValueError (modelled as none) on a
non-positive argument, otherwise returns the base-10 logarithm. -/
noncomputable def pylog10 (x : ℝ) : Option ℝ :=
  if x ≤ 0 then none else some (Real.logb 10 x)

/-- Python division: raises ZeroDivisionError (modelled as none) when the
divisor is zero, otherwise returns the quotient. -/
noncomputable def pydiv (x y : ℝ) : Option ℝ :=
  if y = 0 then none else some (x / y)

/-- Embedding of calculate_mean_velocity (src/paleohydraulics.py lines
11-36): L_A = h_o^(2/3) * w_o^(1/3); log_Um = 0.46 + 0.326 *
log10((d_s*d_w*D_50*sigma_g*g) / (L_A*nu)); returns 10^log_Um. The
division and the logarithm are the fallible steps. -/
noncomputable def calculate_mean_velocity
    (d_s d_w D_50 sigma_g g h_o w_o nu : ℝ) : Option ℝ :=
  let L_A := h_o ^ ((2 : ℝ) / 3) * w_o ^ ((1 : ℝ) / 3)
  (pydiv (d_s * d_w * D_50 * sigma_g * g) (L_A * nu)).bind fun arg =>
    (pylog10 arg).map fun log_Um => (10 : ℝ) ^ (0.46 + 0.326 * log_Um)

/-- Embedding of calculate_velocity_from_dunes (src/paleohydraulics.py
lines 38-63): h = L / 10; U = Fr * sqrt(g * h); H_L = H / L; returns
the triple (U, h, H_L). D_50 is a parameter of the source signature that
the body never uses. The square root and the division H / L are the
fallible steps. -/
noncomputable def calculate_velocity_from_dunes
    (L H D_50 : ℝ) (Fr : ℝ := 0.6) (g : ℝ := 9.81) : Option (ℝ × ℝ × ℝ) :=
  let h := L / 10
  (pysqrt (g * h)).bind fun s =>
    (pydiv H L).map fun H_L => (Fr * s, h, H_L)

/-- Reference definition for the dune model, written from the spec text:
h = L / 10, U = Fr * sqrt(g * h), steepness = H / L. -/
noncomputable def dune_spec_triple (L H D_50 Fr g : ℝ) : ℝ × ℝ × ℝ :=
  (Fr * Real.sqrt (g * (L / 10)), L / 10, H / L)

/-- Reference definition for the scour model, written from the spec text:
U_m = 10^(0.46 + 0.326 * log10((d_s*d_w*D_50*sigma_g*g) /
(h_o^(2/3) * w_o^(1/3) * nu))). -/
noncomputable def mean_velocity_formula
    (d_s d_w D_50 sigma_g g h_o w_o nu : ℝ) : ℝ :=
  (10 : ℝ) ^ ((0.46 : ℝ) + 0.326 * Real.logb 10
    ((d_s * d_w * D_50 * sigma_g * g) /
      (h_o ^ ((2 : ℝ) / 3) * w_o ^ ((1 : ℝ) / 3) * nu)))

/-- The regression step as a function of the logarithm argument alone. -/
noncomputable def regF (x : ℝ) : ℝ :=
  (10 : ℝ) ^ ((0.46 : ℝ) + 0.326 * Real.logb 10 x)

/-- Driver constant (line 67): dune length, mean of three samples. -/
noncomputable def L_main : ℝ := (193 + 166 + 205) / 3

/-- Driver constant (line 68): dune height as an elevation difference. -/
noncomputable def H_main : ℝ := 245.365 - 239.871

/-- Driver constant (line 69): median grain size. -/
noncomputable def D50_main : ℝ := 0.05

/-- Driver constant (line 70): Froude number. -/
noncomputable def Fr_main : ℝ := 0.6

/-- Driver constant (line 81): scour depth from DEM elevations. -/
noncomputable def d_s_main : ℝ := 333.9 - 331.5

/-- Driver constant (line 83): sediment sorting coefficient. -/
noncomputable def sigma_g_main : ℝ := 1.5

/-- Driver constant (line 84): gravitational acceleration. -/
noncomputable def g_main : ℝ := 9.81

/-- Driver constant (line 85): obstacle height from DEM elevations. -/
noncomputable def h_o_main : ℝ := 341.7 - 333.5

/-- Driver constant (line 86): obstacle width. -/
noncomputable def w_o_main : ℝ := 16.2

/-- Driver constant (line 87): kinematic viscosity as supplied. -/
noncomputable def nu_main : ℝ := 1.0e-3

/-- One line printed to standard output: the sentence text before the
number, the numeric value, the number of decimal places of the format
(2 for .2f, 3 for .3f), and the unit text printed after the number
(empty for the dimensionless steepness line). -/
structure OutLine where
  text : String
  value : ℝ
  decimals : Nat
  unit : String

/-- Embedding of the driver (src/paleohydraulics.py lines 65-93): the
sequence of lines the script prints, in order. The dune call uses the
default g = 9.81; the scour call reuses the dune water depth as d_w.
Returns none when either library call raises, mirroring an uncaught
exception aborting the script. -/
noncomputable def main_output : Option (List OutLine) :=
  (calculate_velocity_from_dunes L_main H_main D50_main Fr_main).bind fun t =>
    (calculate_mean_velocity d_s_main t.2.1 D50_main sigma_g_main g_main
        h_o_main w_o_main nu_main).map fun U_scour =>
      [⟨"Estimated water depth (h) from dunes:", t.2.1, 2, "m"⟩,
       ⟨"Mean flow velocity (U) from dunes:", t.1, 2, "m/s"⟩,
       ⟨"Dune steepness (H/L):", t.2.2, 3, ""⟩,
       ⟨"The calculated mean flow velocity (U_m) from scour mark:", U_scour, 2, "m/s"⟩]

end Paleo

namespace Paleo

theorem pysqrt_of_nonneg {x : ℝ} (hx : 0 ≤ x) : pysqrt x = some (Real.sqrt x) := by
  simp [pysqrt, not_lt.mpr hx]

theorem pylog10_of_pos {x : ℝ} (hx : 0 < x) : pylog10 x = some (Real.logb 10 x) := by
  simp [pylog10, not_le.mpr hx]

theorem pydiv_of_ne {x y : ℝ} (hy : y ≠ 0) : pydiv x y = some (x / y) := by
  simp [pydiv, hy]

/-- On a positive dune length and nonnegative gravity the dune function
returns normally, with the closed-form triple. -/
theorem calculate_velocity_from_dunes_eq
    (L H D_50 Fr g : ℝ) (hL : 0 < L) (hg : 0 ≤ g) :
    calculate_velocity_from_dunes L H D_50 Fr g =
      some (Fr * Real.sqrt (g * (L / 10)), L / 10, H / L) := by
  have h1 : (0 : ℝ) ≤ g * (L / 10) := by positivity
  simp [calculate_velocity_from_dunes, pysqrt_of_nonneg h1, pydiv_of_ne (ne_of_gt hL)]

/-- The obstacle frontal length L_A is positive for positive obstacle
dimensions. -/
theorem L_A_pos {h_o w_o : ℝ} (hh : 0 < h_o) (hw : 0 < w_o) :
    0 < h_o ^ ((2 : ℝ) / 3) * w_o ^ ((1 : ℝ) / 3) :=
  mul_pos (Real.rpow_pos_of_pos hh _) (Real.rpow_pos_of_pos hw _)

theorem regF_pos (x : ℝ) : 0 < regF x :=
  Real.rpow_pos_of_pos (by norm_num) _

theorem mean_velocity_formula_eq_regF (d_s d_w D_50 sigma_g g h_o w_o nu : ℝ) :
    mean_velocity_formula d_s d_w D_50 sigma_g g h_o w_o nu =
      regF ((d_s * d_w * D_50 * sigma_g * g) /
        (h_o ^ ((2 : ℝ) / 3) * w_o ^ ((1 : ℝ) / 3) * nu)) := rfl

/-- Scaling the logarithm argument by k > 0 scales the regression output
by k ^ 0.326. -/
theorem regF_scale {k x : ℝ} (hk : 0 < k) (hx : 0 < x) :
    regF (k * x) = k ^ (0.326 : ℝ) * regF x := by
  unfold regF
  rw [Real.logb_mul (ne_of_gt hk) (ne_of_gt hx), mul_add, add_left_comm,
    Real.rpow_add (by norm_num : (0 : ℝ) < 10)]
  congr 1
  rw [mul_comm (0.326 : ℝ) (Real.logb 10 k), Real.rpow_mul (by norm_num : (0 : ℝ) ≤ 10),
    Real.rpow_logb (by norm_num) (by norm_num) hk]

/-- The regression output is strictly increasing on positive arguments. -/
theorem regF_lt_regF {x y : ℝ} (hx : 0 < x) (hxy : x < y) : regF x < regF y := by
  unfold regF
  rw [Real.rpow_lt_rpow_left_iff (by norm_num : (1 : ℝ) < 10)]
  have := Real.logb_lt_logb (by norm_num : (1 : ℝ) < 10) hx hxy
  nlinarith

/-- On strictly positive inputs the scour function returns normally, with
the value of the reference formula. -/
theorem calculate_mean_velocity_eq
    (d_s d_w D_50 sigma_g g h_o w_o nu : ℝ)
    (h1 : 0 < d_s) (h2 : 0 < d_w) (h3 : 0 < D_50) (h4 : 0 < sigma_g)
    (h5 : 0 < g) (h6 : 0 < h_o) (h7 : 0 < w_o) (h8 : 0 < nu) :
    calculate_mean_velocity d_s d_w D_50 sigma_g g h_o w_o nu =
      some (mean_velocity_formula d_s d_w D_50 sigma_g g h_o w_o nu) := by
  have hden : 0 < h_o ^ ((2 : ℝ) / 3) * w_o ^ ((1 : ℝ) / 3) * nu :=
    mul_pos (L_A_pos h6 h7) h8
  have hnum : 0 < d_s * d_w * D_50 * sigma_g * g := by positivity
  have harg : 0 < (d_s * d_w * D_50 * sigma_g * g) /
      (h_o ^ ((2 : ℝ) / 3) * w_o ^ ((1 : ℝ) / 3) * nu) := div_pos hnum hden
  simp only [calculate_mean_velocity, mean_velocity_formula]
  rw [pydiv_of_ne (ne_of_gt hden), Option.some_bind, pylog10_of_pos harg, Option.map_some']

/-- Evaluation of the dune call the driver makes (line 73), at the literal
driver constants: L averages to 188, H is 5.494, so h = 18.8,
U = 0.6 * sqrt(9.81 * 18.8) and the steepness is 5.494 / 188. -/
theorem driver_dune_eval :
    calculate_velocity_from_dunes L_main H_main D50_main Fr_main =
      some (0.6 * Real.sqrt (9.81 * 18.8), 18.8, 5.494 / 188) := by
  rw [calculate_velocity_from_dunes_eq L_main H_main D50_main Fr_main 9.81
    (by norm_num [L_main]) (by norm_num)]
  norm_num [L_main, H_main, Fr_main]

/-- Evaluation of the scour call the driver makes (line 90), with the dune
water depth 18.8 fed in as d_w and the DEM differences reduced. -/
theorem driver_scour_eval :
    calculate_mean_velocity d_s_main 18.8 D50_main sigma_g_main g_main h_o_main
        w_o_main nu_main =
      some (mean_velocity_formula 2.4 18.8 0.05 1.5 9.81 8.2 16.2 1.0e-3) := by
  rw [calculate_mean_velocity_eq _ _ _ _ _ _ _ _ (by norm_num [d_s_main]) (by norm_num)
    (by norm_num [D50_main]) (by norm_num [sigma_g_main]) (by norm_num [g_main])
    (by norm_num [h_o_main]) (by norm_num [w_o_main]) (by norm_num [nu_main])]
  norm_num [d_s_main, D50_main, sigma_g_main, g_main, h_o_main, w_o_main, nu_main]

/-- The whole script runs to completion and prints these four lines. -/
theorem main_output_eval :
    main_output = some
      [⟨"Estimated water depth (h) from dunes:", 18.8, 2, "m"⟩,
       ⟨"Mean flow velocity (U) from dunes:", 0.6 * Real.sqrt (9.81 * 18.8), 2, "m/s"⟩,
       ⟨"Dune steepness (H/L):", 5.494 / 188, 3, ""⟩,
       ⟨"The calculated mean flow velocity (U_m) from scour mark:",
         mean_velocity_formula 2.4 18.8 0.05 1.5 9.81 8.2 16.2 1.0e-3, 2, "m/s"⟩] := by
  simp only [main_output, driver_dune_eval, Option.some_bind, driver_scour_eval,
    Option.map_some']

/-- C1: for every L > 0, every H, and every Fr > 0, g > 0,
calculate_velocity_from_dunes returns the triple (U, h, H_L) with
h = L / 10, U = Fr * sqrt(g * h) and steepness H / L, exactly as the
reference definition written from the spec. -/
theorem C1_dunes_match_reference
    (L H D_50 Fr g : ℝ) (hL : 0 < L) (hFr : 0 < Fr) (hg : 0 < g) :
    calculate_velocity_from_dunes L H D_50 Fr g =
      some (dune_spec_triple L H D_50 Fr g) :=
  calculate_velocity_from_dunes_eq L H D_50 Fr g hL hg.le

/-- Witness for C1 at L = 1, H = 0, D_50 = 0, Fr = 1, g = 1. -/
theorem C1_dunes_match_reference_witness :
    calculate_velocity_from_dunes 1 0 0 1 1 = some (dune_spec_triple 1 0 0 1 1) :=
  C1_dunes_match_reference 1 0 0 1 1 one_pos one_pos one_pos

/-- C2: for strictly positive inputs, calculate_mean_velocity returns
U_m = 10^(0.46 + 0.326 * log10((d_s*d_w*D_50*sigma_g*g) /
(h_o^(2/3) * w_o^(1/3) * nu))), the reference formula with
L_A = h_o^(2/3) * w_o^(1/3). -/
theorem C2_scour_matches_formula
    (d_s d_w D_50 sigma_g g h_o w_o nu : ℝ)
    (h1 : 0 < d_s) (h2 : 0 < d_w) (h3 : 0 < D_50) (h4 : 0 < sigma_g)
    (h5 : 0 < g) (h6 : 0 < h_o) (h7 : 0 < w_o) (h8 : 0 < nu) :
    calculate_mean_velocity d_s d_w D_50 sigma_g g h_o w_o nu =
      some (mean_velocity_formula d_s d_w D_50 sigma_g g h_o w_o nu) :=
  calculate_mean_velocity_eq d_s d_w D_50 sigma_g g h_o w_o nu h1 h2 h3 h4 h5 h6 h7 h8

/-- Witness for C2 at all arguments equal to 1. -/
theorem C2_scour_matches_formula_witness :
    calculate_mean_velocity 1 1 1 1 1 1 1 1 =
      some (mean_velocity_formula 1 1 1 1 1 1 1 1) :=
  C2_scour_matches_formula 1 1 1 1 1 1 1 1
    one_pos one_pos one_pos one_pos one_pos one_pos one_pos one_pos

/-- C3 counterexample: the script prints four lines, not three, so the
claim that its entire standard output is exactly three lines is false at
the literal driver input. -/
theorem C3_three_lines_counterexample :
    main_output.map List.length = some 4 ∧ main_output.map List.length ≠ some 3 := by
  rw [main_output_eval]
  exact ⟨rfl, by simp⟩

/-- C3 amended: the script's entire output is exactly four lines; the
first two are rounded to 2 decimal places with unit suffixes m and m/s,
the third to 3 decimal places with no unit suffix (dimensionless
steepness), and the fourth to 2 decimal places with unit suffix m/s. -/
theorem C3_output_format :
    main_output.map (List.map fun o => (o.decimals, o.unit)) =
      some [(2, "m"), (2, "m/s"), (3, ""), (2, "m/s")] := by
  rw [main_output_eval]
  rfl

/-- C4: whenever the logarithm argument (d_s*d_w*D_50*sigma_g*g) /
(L_A * nu) is zero or negative, calculate_mean_velocity takes the error
branch (division by zero or log of a non-positive number) and returns no
value. -/
theorem C4_scour_faults_on_nonpos_log_arg
    (d_s d_w D_50 sigma_g g h_o w_o nu : ℝ)
    (h : (d_s * d_w * D_50 * sigma_g * g) /
        (h_o ^ ((2 : ℝ) / 3) * w_o ^ ((1 : ℝ) / 3) * nu) ≤ 0) :
    calculate_mean_velocity d_s d_w D_50 sigma_g g h_o w_o nu = none := by
  by_cases hz : h_o ^ ((2 : ℝ) / 3) * w_o ^ ((1 : ℝ) / 3) * nu = 0
  · simp only [calculate_mean_velocity]
    rw [hz]
    simp [pydiv]
  · simp only [calculate_mean_velocity]
    rw [pydiv_of_ne hz, Option.some_bind, pylog10, if_pos h, Option.map_none']

/-- Witness for C4 at zero scour depth and all other arguments 1. -/
theorem C4_scour_faults_witness :
    calculate_mean_velocity 0 1 1 1 1 1 1 1 = none :=
  C4_scour_faults_on_nonpos_log_arg 0 1 1 1 1 1 1 1 (by norm_num [Real.one_rpow])

/-- C5: for every L ≤ 0 and Fr > 0, g > 0, the dune function hits a
domain fault (square root of a negative number when L < 0, division by
zero in H / L when L = 0) and returns no triple. -/
theorem C5_dunes_fault_on_nonpos_L
    (L H D_50 Fr g : ℝ) (hL : L ≤ 0) (hFr : 0 < Fr) (hg : 0 < g) :
    calculate_velocity_from_dunes L H D_50 Fr g = none := by
  rcases lt_or_eq_of_le hL with hlt | heq
  · have hneg : g * (L / 10) < 0 := mul_neg_of_pos_of_neg hg (by linarith)
    simp [calculate_velocity_from_dunes, pysqrt, hneg]
  · subst heq
    simp [calculate_velocity_from_dunes, pysqrt, pydiv]

/-- Witness for C5 at L = 0, H = 1, D_50 = 1, Fr = 1, g = 1. -/
theorem C5_dunes_fault_witness :
    calculate_velocity_from_dunes 0 1 1 1 1 = none :=
  C5_dunes_fault_on_nonpos_L 0 1 1 1 1 le_rfl one_pos one_pos

/-- C6: at the literal driver constants (L = 188, H = 5.494, D_50 = 0.05,
Fr = 0.6, default g) the dune model returns exactly h = 18.8,
U = 0.6 * sqrt(9.81 * 18.8) and steepness 5.494 / 188, where U is within
0.01 of 8.14 and the steepness within 0.001 of 0.029 (the approximations
read as agreement to the printed number of decimals, within one unit in
the last place); and feeding d_w = 18.8 into the scour model with
d_s = 2.4, sigma_g = 1.5, g = 9.81, h_o = 8.2, w_o = 16.2, nu = 1.0e-3
yields exactly the value of the regression formula at those inputs. -/
theorem C6_end_to_end :
    calculate_velocity_from_dunes L_main H_main D50_main Fr_main =
      some (0.6 * Real.sqrt (9.81 * 18.8), 18.8, 5.494 / 188) ∧
    |0.6 * Real.sqrt (9.81 * 18.8) - 8.14| < 0.01 ∧
    |(5.494 / 188 : ℝ) - 0.029| < 0.001 ∧
    calculate_mean_velocity d_s_main 18.8 D50_main sigma_g_main g_main h_o_main
        w_o_main nu_main =
      some (mean_velocity_formula 2.4 18.8 0.05 1.5 9.81 8.2 16.2 1.0e-3) := by
  have h184 : (9.81 : ℝ) * 18.8 = 184.428 := by norm_num
  have hlo : (13.58 : ℝ) < Real.sqrt (9.81 * 18.8) := by
    rw [h184]
    exact (Real.lt_sqrt (by norm_num)).mpr (by norm_num)
  have hhi : Real.sqrt (9.81 * 18.8) < 13.581 := by
    rw [h184]
    exact (Real.sqrt_lt' (by norm_num)).mpr (by norm_num)
  refine ⟨driver_dune_eval, ?_, ?_, driver_scour_eval⟩
  · rw [abs_sub_lt_iff]
    constructor <;> nlinarith
  · rw [abs_sub_lt_iff]
    norm_num

/-- C7: for L > 0, Fr > 0, g > 0, doubling the Froude number doubles the
returned velocity U and leaves the returned depth h and steepness
unchanged: the call at 2 * Fr equals the call at Fr with only the first
component doubled. -/
theorem C7_doubling_Fr_doubles_U
    (L H D_50 Fr g : ℝ) (hL : 0 < L) (hFr : 0 < Fr) (hg : 0 < g) :
    calculate_velocity_from_dunes L H D_50 (2 * Fr) g =
      (calculate_velocity_from_dunes L H D_50 Fr g).map
        fun t => (2 * t.1, t.2.1, t.2.2) := by
  rw [calculate_velocity_from_dunes_eq L H D_50 (2 * Fr) g hL hg.le,
    calculate_velocity_from_dunes_eq L H D_50 Fr g hL hg.le, Option.map_some']
  simp [mul_assoc]

/-- Witness for C7 at L = 1, H = 0, D_50 = 0, Fr = 1, g = 1. -/
theorem C7_doubling_Fr_witness :
    calculate_velocity_from_dunes 1 0 0 (2 * 1) 1 =
      (calculate_velocity_from_dunes 1 0 0 1 1).map
        fun t => (2 * t.1, t.2.1, t.2.2) :=
  C7_doubling_Fr_doubles_U 1 0 0 1 1 one_pos one_pos one_pos

/-- C8: the dune function never reads D_50, so two runs differing only in
D_50 return identical results (two-run noninterference). -/
theorem C8_D50_noninterference (L H D_50 D_50' Fr g : ℝ) :
    calculate_velocity_from_dunes L H D_50 Fr g =
      calculate_velocity_from_dunes L H D_50' Fr g := rfl

/-- Any value the scour function returns is the regression step applied
to the logarithm argument. -/
theorem calculate_mean_velocity_some_eq
    (d_s d_w D_50 sigma_g g h_o w_o nu U : ℝ)
    (h : calculate_mean_velocity d_s d_w D_50 sigma_g g h_o w_o nu = some U) :
    U = regF ((d_s * d_w * D_50 * sigma_g * g) /
      (h_o ^ ((2 : ℝ) / 3) * w_o ^ ((1 : ℝ) / 3) * nu)) := by
  by_cases hz : h_o ^ ((2 : ℝ) / 3) * w_o ^ ((1 : ℝ) / 3) * nu = 0
  · simp only [calculate_mean_velocity] at h
    rw [hz] at h
    simp [pydiv] at h
  · simp only [calculate_mean_velocity] at h
    rw [pydiv_of_ne hz, Option.some_bind] at h
    by_cases ha : (d_s * d_w * D_50 * sigma_g * g) /
        (h_o ^ ((2 : ℝ) / 3) * w_o ^ ((1 : ℝ) / 3) * nu) ≤ 0
    · rw [pylog10, if_pos ha, Option.map_none'] at h
      exact absurd h (by simp)
    · rw [pylog10, if_neg ha, Option.map_some'] at h
      exact (Option.some_inj.mp h).symm

/-- C9: whenever calculate_mean_velocity returns a value, that value is
strictly positive, being 10 raised to a real exponent. -/
theorem C9_returned_velocity_pos
    (d_s d_w D_50 sigma_g g h_o w_o nu U : ℝ)
    (h : calculate_mean_velocity d_s d_w D_50 sigma_g g h_o w_o nu = some U) :
    0 < U := by
  rw [calculate_mean_velocity_some_eq d_s d_w D_50 sigma_g g h_o w_o nu U h]
  exact regF_pos _

/-- Witness for C9 at all arguments equal to 1. -/
theorem C9_returned_velocity_pos_witness :
    0 < mean_velocity_formula 1 1 1 1 1 1 1 1 :=
  C9_returned_velocity_pos 1 1 1 1 1 1 1 1 _
    (calculate_mean_velocity_eq 1 1 1 1 1 1 1 1
      one_pos one_pos one_pos one_pos one_pos one_pos one_pos one_pos)

/-- Scaling the product of the five numerator factors by k scales the
formula value by k ^ 0.326. -/
theorem mean_velocity_formula_num_scale
    (a b c d e a0 b0 c0 d0 e0 h_o w_o nu k : ℝ)
    (hprod : a * b * c * d * e = k * (a0 * b0 * c0 * d0 * e0))
    (hk : 0 < k) (hP : 0 < a0 * b0 * c0 * d0 * e0)
    (hden : 0 < h_o ^ ((2 : ℝ) / 3) * w_o ^ ((1 : ℝ) / 3) * nu) :
    mean_velocity_formula a b c d e h_o w_o nu =
      k ^ (0.326 : ℝ) * mean_velocity_formula a0 b0 c0 d0 e0 h_o w_o nu := by
  rw [mean_velocity_formula_eq_regF, mean_velocity_formula_eq_regF, hprod, mul_div_assoc]
  exact regF_scale hk (div_pos hP hden)

/-- Increasing the product of the five numerator factors strictly
increases the formula value. -/
theorem mean_velocity_formula_num_lt
    (a b c d e a0 b0 c0 d0 e0 h_o w_o nu : ℝ)
    (hlt : a0 * b0 * c0 * d0 * e0 < a * b * c * d * e)
    (hP : 0 < a0 * b0 * c0 * d0 * e0)
    (hden : 0 < h_o ^ ((2 : ℝ) / 3) * w_o ^ ((1 : ℝ) / 3) * nu) :
    mean_velocity_formula a0 b0 c0 d0 e0 h_o w_o nu <
      mean_velocity_formula a b c d e h_o w_o nu := by
  rw [mean_velocity_formula_eq_regF, mean_velocity_formula_eq_regF]
  refine regF_lt_regF (div_pos hP hden) ?_
  rw [div_eq_mul_inv, div_eq_mul_inv]
  exact mul_lt_mul_of_pos_right hlt (inv_pos.mpr hden)

/-- C10: on strictly positive inputs, multiplying any one of d_s, d_w,
D_50, sigma_g, g by k > 0 multiplies the returned U_m by exactly
k ^ 0.326, and U_m is strictly increasing in each of these five
arguments. -/
theorem C10_power_law_scaling
    (d_s d_w D_50 sigma_g g h_o w_o nu k e1 e2 e3 e4 e5 : ℝ)
    (h1 : 0 < d_s) (h2 : 0 < d_w) (h3 : 0 < D_50) (h4 : 0 < sigma_g) (h5 : 0 < g)
    (h6 : 0 < h_o) (h7 : 0 < w_o) (h8 : 0 < nu) (hk : 0 < k)
    (he1 : d_s < e1) (he2 : d_w < e2) (he3 : D_50 < e3) (he4 : sigma_g < e4)
    (he5 : g < e5) :
    (calculate_mean_velocity (k * d_s) d_w D_50 sigma_g g h_o w_o nu =
      (calculate_mean_velocity d_s d_w D_50 sigma_g g h_o w_o nu).map
        fun u => k ^ (0.326 : ℝ) * u) ∧
    (calculate_mean_velocity d_s (k * d_w) D_50 sigma_g g h_o w_o nu =
      (calculate_mean_velocity d_s d_w D_50 sigma_g g h_o w_o nu).map
        fun u => k ^ (0.326 : ℝ) * u) ∧
    (calculate_mean_velocity d_s d_w (k * D_50) sigma_g g h_o w_o nu =
      (calculate_mean_velocity d_s d_w D_50 sigma_g g h_o w_o nu).map
        fun u => k ^ (0.326 : ℝ) * u) ∧
    (calculate_mean_velocity d_s d_w D_50 (k * sigma_g) g h_o w_o nu =
      (calculate_mean_velocity d_s d_w D_50 sigma_g g h_o w_o nu).map
        fun u => k ^ (0.326 : ℝ) * u) ∧
    (calculate_mean_velocity d_s d_w D_50 sigma_g (k * g) h_o w_o nu =
      (calculate_mean_velocity d_s d_w D_50 sigma_g g h_o w_o nu).map
        fun u => k ^ (0.326 : ℝ) * u) ∧
    mean_velocity_formula d_s d_w D_50 sigma_g g h_o w_o nu <
      mean_velocity_formula e1 d_w D_50 sigma_g g h_o w_o nu ∧
    mean_velocity_formula d_s d_w D_50 sigma_g g h_o w_o nu <
      mean_velocity_formula d_s e2 D_50 sigma_g g h_o w_o nu ∧
    mean_velocity_formula d_s d_w D_50 sigma_g g h_o w_o nu <
      mean_velocity_formula d_s d_w e3 sigma_g g h_o w_o nu ∧
    mean_velocity_formula d_s d_w D_50 sigma_g g h_o w_o nu <
      mean_velocity_formula d_s d_w D_50 e4 g h_o w_o nu ∧
    mean_velocity_formula d_s d_w D_50 sigma_g g h_o w_o nu <
      mean_velocity_formula d_s d_w D_50 sigma_g e5 h_o w_o nu := by
  have hden : 0 < h_o ^ ((2 : ℝ) / 3) * w_o ^ ((1 : ℝ) / 3) * nu :=
    mul_pos (L_A_pos h6 h7) h8
  have hP : 0 < d_s * d_w * D_50 * sigma_g * g := by positivity
  have hbase := calculate_mean_velocity_eq d_s d_w D_50 sigma_g g h_o w_o nu
    h1 h2 h3 h4 h5 h6 h7 h8
  refine ⟨?_, ?_, ?_, ?_, ?_, ?_, ?_, ?_, ?_, ?_⟩
  · rw [calculate_mean_velocity_eq (k * d_s) d_w D_50 sigma_g g h_o w_o nu
      (mul_pos hk h1) h2 h3 h4 h5 h6 h7 h8, hbase, Option.map_some']
    exact congrArg some (mean_velocity_formula_num_scale (k * d_s) d_w D_50 sigma_g g
      d_s d_w D_50 sigma_g g h_o w_o nu k (by ring) hk hP hden)
  · rw [calculate_mean_velocity_eq d_s (k * d_w) D_50 sigma_g g h_o w_o nu
      h1 (mul_pos hk h2) h3 h4 h5 h6 h7 h8, hbase, Option.map_some']
    exact congrArg some (mean_velocity_formula_num_scale d_s (k * d_w) D_50 sigma_g g
      d_s d_w D_50 sigma_g g h_o w_o nu k (by ring) hk hP hden)
  · rw [calculate_mean_velocity_eq d_s d_w (k * D_50) sigma_g g h_o w_o nu
      h1 h2 (mul_pos hk h3) h4 h5 h6 h7 h8, hbase, Option.map_some']
    exact congrArg some (mean_velocity_formula_num_scale d_s d_w (k * D_50) sigma_g g
      d_s d_w D_50 sigma_g g h_o w_o nu k (by ring) hk hP hden)
  · rw [calculate_mean_velocity_eq d_s d_w D_50 (k * sigma_g) g h_o w_o nu
      h1 h2 h3 (mul_pos hk h4) h5 h6 h7 h8, hbase, Option.map_some']
    exact congrArg some (mean_velocity_formula_num_scale d_s d_w D_50 (k * sigma_g) g
      d_s d_w D_50 sigma_g g h_o w_o nu k (by ring) hk hP hden)
  · rw [calculate_mean_velocity_eq d_s d_w D_50 sigma_g (k * g) h_o w_o nu
      h1 h2 h3 h4 (mul_pos hk h5) h6 h7 h8, hbase, Option.map_some']
    exact congrArg some (mean_velocity_formula_num_scale d_s d_w D_50 sigma_g (k * g)
      d_s d_w D_50 sigma_g g h_o w_o nu k (by ring) hk hP hden)
  · exact mean_velocity_formula_num_lt e1 d_w D_50 sigma_g g
      d_s d_w D_50 sigma_g g h_o w_o nu (by gcongr) hP hden
  · exact mean_velocity_formula_num_lt d_s e2 D_50 sigma_g g
      d_s d_w D_50 sigma_g g h_o w_o nu (by gcongr) hP hden
  · exact mean_velocity_formula_num_lt d_s d_w e3 sigma_g g
      d_s d_w D_50 sigma_g g h_o w_o nu (by gcongr) hP hden
  · exact mean_velocity_formula_num_lt d_s d_w D_50 e4 g
      d_s d_w D_50 sigma_g g h_o w_o nu (by gcongr) hP hden
  · exact mean_velocity_formula_num_lt d_s d_w D_50 sigma_g e5
      d_s d_w D_50 sigma_g g h_o w_o nu (by gcongr) hP hden

/-- Witness for C10: the d_s scaling component at all base arguments 1,
k = 2, and comparison points 2. -/
theorem C10_power_law_scaling_witness :
    calculate_mean_velocity (2 * 1) 1 1 1 1 1 1 1 =
      (calculate_mean_velocity 1 1 1 1 1 1 1 1).map
        fun u => (2 : ℝ) ^ (0.326 : ℝ) * u :=
  (C10_power_law_scaling 1 1 1 1 1 1 1 1 2 2 2 2 2 2
    one_pos one_pos one_pos one_pos one_pos one_pos one_pos one_pos two_pos
    one_lt_two one_lt_two one_lt_two one_lt_two one_lt_two).1

end Paleo
